import Mathlib

/-!
Verification of the Spectrolight FWS Poly plugin
(`pymodaq_plugins_spectrolight`): a shallow embedding, over exact
rationals, of the hardware wrapper `hardware/fws_auto.py`, the legacy
wrapper `hardware/fws-auto.py`, and the actuator plugin
`daq_move_plugins/daq_move_FwsPoly.py`.

Python floats are modelled as `ℚ` (all concrete values appearing in the
development are dyadic and exactly representable, so float arithmetic on
them is exact).  The vendor .NET channel (`ClassPoly`) is an opaque
collaborator: the return code and the strings it produces for one call
are passed to each embedded operation as explicit arguments.  Exceptions
(`PolyError`, `IOError`, `ValueError`) are modelled with `Option` /
`Except` / dedicated result types.
-/

namespace Spectrolight

/-- Python's builtin `round` to an integer: round half to even
(banker's rounding), on exact rationals. -/
def pyRound (q : ℚ) : ℤ :=
  if q - ⌊q⌋ < 1/2 then ⌊q⌋
  else if 1/2 < q - ⌊q⌋ then ⌊q⌋ + 1
  else if Even ⌊q⌋ then ⌊q⌋ else ⌊q⌋ + 1

/-- Embedding of `DAQ_Move_FwsPoly.round_to_half_integer`:
`round(value) + round((value - round(value)) * 2) / 2`. -/
def round_to_half_integer (value : ℚ) : ℚ :=
  (pyRound value : ℚ) + (pyRound ((value - (pyRound value : ℚ)) * 2) : ℚ) / 2

/-- Cached operational state of `FWSAuto` (`hardware/fws_auto.py`): the
last known (center wavelength, full width at half maximum) pair, the
fields `self._cw` and `self._fwhm`. -/
structure FWSState where
  cw : ℚ
  fwhm : ℚ
  deriving DecidableEq, Repr

/-- Initial cache of `FWSAuto.__init__`: `_cw = 532.`, `_fwhm = 5`. -/
def initState : FWSState := ⟨532, 5⟩

/-- Setter of `FWSAuto.cw_fwhm`: issues the vendor `SetWavelength` command;
when the return code `ret` is 0 the cache is updated to the written
pair, otherwise an `IOError` is raised (modelled as `some` error text)
and the cache is left unchanged.  `msg` is the vendor translation
`GetStringMsg ret` of the code. -/
def setCwFwhm (ret : ℤ) (msg : String) (pair : ℚ × ℚ) (st : FWSState) :
    Option String × FWSState :=
  if ret = 0 then (none, { cw := pair.1, fwhm := pair.2 })
  else (some ("SetWavelength: " ++ msg), st)

/-- Embedding of `FWSAuto.set_cw_fwhm_from_internal`: assigns the cached pair back to
the `cw_fwhm` property setter. -/
def setCwFwhmFromInternal (ret : ℤ) (msg : String) (st : FWSState) :
    Option String × FWSState :=
  setCwFwhm ret msg (st.cw, st.fwhm) st

/-- Test of the Python membership `',' in s`. -/
def containsComma (s : String) : Bool := s.toList.contains ','

/-- Python `s.replace(',', '.')`. -/
def replaceCommaDot (s : String) : String :=
  ⟨s.toList.map fun c => if c = ',' then '.' else c⟩

/-- Numeric value of a digit string, most significant digit first. -/
def digitsToNat (cs : List Char) : ℕ :=
  cs.foldl (fun a c => 10 * a + (c.toNat - 48)) 0

/-- Split a character list at the decimal points: the list of
point-free chunks (as Python `s.split('.')`). -/
def splitOnDot : List Char → List (List Char)
  | [] => [[]]
  | c :: rest =>
      if c = '.' then [] :: splitOnDot rest
      else
        match splitOnDot rest with
        | [] => [[c]]
        | chunk :: chunks => (c :: chunk) :: chunks

/-- Python `float()` restricted to the unsigned decimal strings the
vendor channel produces: digit characters with at most one decimal
point and at least one digit; any other character (a decimal comma
included) raises `ValueError`, modelled as `none`. -/
def parseFloat (s : String) : Option ℚ :=
  match splitOnDot s.toList with
  | [a] => if a ≠ [] ∧ a.all Char.isDigit then some (digitsToNat a) else none
  | [a, b] =>
      if (a ≠ [] ∨ b ≠ []) ∧ a.all Char.isDigit ∧ b.all Char.isDigit then
        some ((digitsToNat a : ℚ) + (digitsToNat b : ℚ) / 10 ^ b.length)
      else none
  | _ => none

/-- Result of the `FWSAuto.cw_fwhm` getter: a `PolyError` carrying the
translated message when the vendor code is non-zero, a `ValueError` from
`float()` when a string does not parse, or the parsed pair. -/
inductive ReadResult where
  | deviceError (msg : String)
  | parseError
  | ok (cw fwhm : ℚ)
  deriving DecidableEq, Repr

/-- Getter of `FWSAuto.cw_fwhm`: `GetCurrentWavelength` returns code `ret`
and raw strings; non-zero `ret` raises `PolyError msg`; when the cw
string contains a comma, the comma is replaced by a point in the cw and
fwhm strings; both are parsed with `float()` and on success the cache is
updated to the parsed pair. -/
def getCwFwhm (ret : ℤ) (msg : String) (cwStr fwhmStr : String) (st : FWSState) :
    ReadResult × FWSState :=
  if ret ≠ 0 then (.deviceError msg, st)
  else
    let cw2 := if containsComma cwStr then replaceCommaDot cwStr else cwStr
    let fwhm2 := if containsComma cwStr then replaceCommaDot fwhmStr else fwhmStr
    match parseFloat cw2, parseFloat fwhm2 with
    | some c, some f => (.ok c f, { cw := c, fwhm := f })
    | _, _ => (.parseError, st)

/-- Embedding of `FWSAuto.get_device_info`: `GetInforData` returns
`(ret, model, serial, range)`; a non-zero `ret` raises `PolyError` with
the translated message `msg`, a zero `ret` returns the identity triple. -/
def get_device_info (ret : ℤ) (msg model serial rng : String) :
    Except String (String × String × String) :=
  if ret ≠ 0 then .error msg else .ok (model, serial, rng)

/-- Embedding of `FWSAuto.is_device_ready`: `GetDeviceStatus() == 6`. -/
def is_device_ready (code : ℤ) : Bool := code == 6

/-- Outcome of `FWSAuto._wait_device_ready`: the loop exits because the
device reported ready at some poll, or because the elapsed time after a
sleep exceeded the timeout; `fuelOut` is the recursion bound of the
model running out, proved unreachable under the fuel that
`wait_device_ready` supplies. -/
inductive WaitOutcome where
  | ready (poll : ℕ)
  | timedOut (sleeps : ℕ)
  | fuelOut
  deriving DecidableEq, Repr

/-- The `while` loop of `FWSAuto._wait_device_ready`, run against the
trace `status` of device-status codes (`status n` is the code the n-th
poll returns).  Time is idealised: each `sleep(0.5)` advances
`perf_counter()` by exactly half a second, so after `n` sleeps the
elapsed time is `n * (1/2)`.  A poll that reports ready exits the loop;
otherwise the loop sleeps and breaks when the elapsed time strictly
exceeds the timeout. -/
def waitFrom (status : ℕ → ℤ) (timeout : ℚ) : ℕ → ℕ → WaitOutcome
  | 0, _ => .fuelOut
  | fuel + 1, n =>
      if is_device_ready (status n) then .ready n
      else if timeout < (n + 1 : ℚ) * (1/2) then .timedOut (n + 1)
      else waitFrom status timeout fuel (n + 1)

/-- Embedding of `FWSAuto._wait_device_ready` with timeout `self._timeout` seconds,
started at poll 0 with enough fuel that the timeout break always fires
before the fuel runs out. -/
def wait_device_ready (status : ℕ → ℤ) (timeout : ℚ) : WaitOutcome :=
  waitFrom status timeout (⌈2 * timeout⌉.toNat + 1) 0

/-- Default timeout of `FWSAuto.__init__`: `self._timeout = 10` seconds. -/
def default_timeout : ℚ := 10

/-- The two logical axes of `DAQ_Move_FwsPoly` (`axes_name = ['cw', 'fwhm']`). -/
inductive Axis where
  | cw
  | fwhm
  deriving DecidableEq, Repr

/-- Modelled from the spec: the consuming framework's bounds clamp
`DAQ_Move_base.check_bound` (the framework is an external dependency,
not part of this repository) — when the user enabled bounds checking the
target is clamped to the configured bounds, otherwise returned
unchanged. -/
def check_bound (isBounds : Bool) (bmin bmax v : ℚ) : ℚ :=
  if isBounds then
    if bmax < v then bmax else if v < bmin then bmin else v
  else v

/-- Embedding of `DAQ_Move_FwsPoly.move_abs`: clamp the target with `check_bound`,
round it to the nearest half integer (this happens for BOTH axes),
apply the framework scaling transform `scale`
(`set_position_with_scaling`, modelled as an arbitrary function), round
to the nearest half integer a second time when the addressed axis is cw,
and hand the result to the `cw`/`fwhm` property setter, which pairs it
with the cached other component for `SetWavelength`.  The returned pair
is the (cw, fwhm) command written to the device. -/
def move_abs (isBounds : Bool) (bmin bmax : ℚ) (scale : ℚ → ℚ)
    (axis : Axis) (st : FWSState) (target : ℚ) : ℚ × ℚ :=
  let v1 := check_bound isBounds bmin bmax target
  let v2 := round_to_half_integer v1
  let v3 := scale v2
  let v4 := match axis with
    | .cw => round_to_half_integer v3
    | .fwhm => v3
  match axis with
  | .cw => (v4, st.fwhm)
  | .fwhm => (st.cw, v4)

/-- The pipeline as the specification words it, for comparison with
`move_abs`: clamp to bounds, then round to the nearest half integer only
when the axis is cw, then apply scaling. -/
def move_abs_claimed (isBounds : Bool) (bmin bmax : ℚ) (scale : ℚ → ℚ)
    (axis : Axis) (st : FWSState) (target : ℚ) : ℚ × ℚ :=
  let v1 := check_bound isBounds bmin bmax target
  let v2 := match axis with
    | .cw => round_to_half_integer v1
    | .fwhm => v1
  let v3 := scale v2
  match axis with
  | .cw => (v3, st.fwhm)
  | .fwhm => (st.cw, v3)

/-- Embedding of `DAQ_Move_FwsPoly.move_rel`:
`value = check_bound(current_position + value) - current_position`, then
`target_value = value + current_position`, then the relative scaling of
`value` (`set_position_relative_with_scaling`; its result is discarded
by the source), then `move_abs(target_value)`. -/
def move_rel (isBounds : Bool) (bmin bmax : ℚ) (scale scaleRel : ℚ → ℚ)
    (axis : Axis) (st : FWSState) (current delta : ℚ) : ℚ × ℚ :=
  let value := check_bound isBounds bmin bmax (current + delta) - current
  let target := value + current
  let _ := scaleRel value
  move_abs isBounds bmin bmax scale axis st target

/-- Vendor commands observable on the channel, for command-trace
statements. -/
inductive Cmd where
  | setWavelength (cw fwhm : ℚ)
  | goBlank
  | getCurrentWavelength
  deriving DecidableEq, Repr

/-- Embedding of `DAQ_Move_FwsPoly.commit_settings` on the `blank` parameter: when
the LED is pushed, `controller.no_filtering()` — the vendor
`GoBlankPosition`, whose returned message the plugin ignores and which
leaves the cache untouched; when released,
`controller.set_cw_fwhm_from_internal()`, which writes the cached pair
back through the `cw_fwhm` setter.  The first component is the list of
vendor commands issued; `ret`/`msg` are the vendor response to the
issued command. -/
def commit_blank (ret : ℤ) (msg : String) (enabled : Bool) (st : FWSState) :
    List Cmd × Option String × FWSState :=
  if enabled then ([Cmd.goBlank], none, st)
  else ([Cmd.setWavelength st.cw st.fwhm], setCwFwhm ret msg (st.cw, st.fwhm) st)

/-- Embedding of `PolyMsgEnum` of the legacy wrapper `hardware/fws-auto.py`: the
status/error codes with their names. -/
def polyMsgEnum : List (String × ℤ) :=
  [("MSG_NO_ERROR", 0), ("MSG_DEVICE_SEARCHING", 1), ("MSG_CONNECTION_OK", 2),
   ("MSG_SET_WAVE_OK", 3), ("MSG_DEVICE_INIT", 4), ("MSG_DEVICE_BUSY", 5),
   ("MSG_DEVICE_READY", 6), ("MSG_DEVICE_CLOSE_PORT", 10),
   ("ERR_DEVICE_NOT_FOUND", -1), ("ERR_DEVICE_FILE_NOT_FOUND", -2),
   ("ERR_DEVICE_FILE_ERROR", -3), ("ERR_DEVICE_NOT_READY", -4),
   ("ERR_DEVICE", -5), ("ERR_DEVICE_ERROR_MODEL_NO", -6),
   ("ERR_DEVICE_ERROR_SERIAL_NO", -7), ("ERR_DEVICE_ERROR_WAVE_RANGE", -8),
   ("ERR_DEVICE_NOTCONNECTED", -9), ("ERR_COMM_CONN_ERROR", -11),
   ("ERR_COMM_CONN_LOST", -12), ("ERR_COMM_TIMEOUT", -13),
   ("ERR_COMM_ERROR", -14), ("ERR_NOT_FOUND_WAVE", -21),
   ("ERR_SET_WAVE_ERROR", -22)]

/-- Embedding of `MSG_CLEAR` of `hardware/fws-auto.py`: the human-readable message of
each named code (the last entry is the source's implicit concatenation
of two adjacent string literals). -/
def MSG_CLEAR : List (String × String) :=
  [("MSG_NO_ERROR", "The command has been executed properly."),
   ("MSG_DEVICE_SEARCHING", "Searching for device."),
   ("MSG_CONNECTION_OK", "Device is connected."),
   ("MSG_SET_WAVE_OK", "Successfully changed CWL and FWHM."),
   ("MSG_DEVICE_INIT", "Device is initializing."),
   ("MSG_DEVICE_BUSY", "Device is busy."),
   ("MSG_DEVICE_READY", "Device is ready."),
   ("MSG_DEVICE_CLOSE_PORT", "Device is not ready."),
   ("ERR_DEVICE_NOT_FOUND", "Device not found."),
   ("ERR_DEVICE_FILE_NOT_FOUND", "Calibration file not found."),
   ("ERR_DEVICE_FILE_ERROR", "Calibration file error."),
   ("ERR_DEVICE_NOT_READY", "Device is busy."),
   ("ERR_DEVICE", "Communication error."),
   ("ERR_DEVICE_ERROR_MODEL_NO", "Calibration file and model number doesn’t match."),
   ("ERR_DEVICE_ERROR_SERIAL_NO", "Calibration file and serial number doesn’t match."),
   ("ERR_DEVICE_ERROR_WAVE_RANGE", "Calibration file and wavelength range doesn’t match."),
   ("ERR_DEVICE_NOTCONNECTED", "Device is not connected."),
   ("ERR_COMM_CONN_ERROR", "Communication error."),
   ("ERR_COMM_CONN_LOST", "Device disconnected."),
   ("ERR_COMM_TIMEOUT", "Communication timeout."),
   ("ERR_COMM_ERROR", "Communication command internal error."),
   ("ERR_NOT_FOUND_WAVE", "Wavelength out of range."),
   ("ERR_SET_WAVE_ERROR",
    "Returning of error for GetCurrentWavelength due to absence of Set wavelengthbecause of SetWavelength command error")]

/-- Names of the `PolyMsgEnum` entries (`PolyMsgEnum.names()`). -/
def enumNames : List String := polyMsgEnum.map Prod.fst

/-- Embedding of `check_error_messages` of `hardware/fws-auto.py`, generalised to an
arbitrary message table: assert that every key of the table is the name
of a `PolyMsgEnum` entry (this is the only direction the source
checks). -/
def checkErrorMessagesWith (table : List (String × String)) : Bool :=
  table.all fun kv => enumNames.contains kv.1

/-- The module-level startup check of `hardware/fws-auto.py` on the
shipped `MSG_CLEAR` table. -/
def check_error_messages : Bool := checkErrorMessagesWith MSG_CLEAR

/-- Embedding of `get_message_from_code` of `hardware/fws-auto.py`, generalised to an
arbitrary message table: `PolyMsgEnum(code).name` (`none` models the
`ValueError` on an unknown code), then the table lookup (`none` models
the `KeyError` on a missing message). -/
def getMessageFromCodeWith (table : List (String × String)) (code : ℤ) :
    Option String :=
  ((polyMsgEnum.find? fun kv => kv.2 == code).map Prod.fst).bind
    fun name => (table.find? fun kv => kv.1 == name).map Prod.snd

/-- Runtime message lookup on the shipped `MSG_CLEAR` table. -/
def get_message_from_code : ℤ → Option String :=
  getMessageFromCodeWith MSG_CLEAR

/-- The `move_abs` pipeline as amended: clamp the target to the
configured bounds, round to the nearest half integer for BOTH axes,
apply the scaling transform, and round to the nearest half integer a
second time when the addressed axis is cw. -/
def move_abs_amended (isBounds : Bool) (bmin bmax : ℚ) (scale : ℚ → ℚ)
    (axis : Axis) (st : FWSState) (target : ℚ) : ℚ × ℚ :=
  let v := scale (round_to_half_integer (check_bound isBounds bmin bmax target))
  match axis with
  | .cw => (round_to_half_integer v, st.fwhm)
  | .fwhm => (st.cw, v)

/-- The shipped `MSG_CLEAR` with the entry of `ERR_SET_WAVE_ERROR`
(code −22) removed: a hypothetical configuration with one missing
message. -/
def MSG_CLEAR_dropped : List (String × String) :=
  MSG_CLEAR.filter fun kv => kv.1 != "ERR_SET_WAVE_ERROR"

lemma abs_sub_pyRound (q : ℚ) : |q - (pyRound q : ℚ)| ≤ 1/2 := by
  have h0 : (⌊q⌋ : ℚ) ≤ q := Int.floor_le q
  have h1 : q < ⌊q⌋ + 1 := Int.lt_floor_add_one q
  unfold pyRound
  by_cases hlt : q - ⌊q⌋ < 1/2
  · rw [if_pos hlt, abs_le]
    constructor <;> linarith
  · rw [if_neg hlt]
    by_cases hgt : 1/2 < q - ⌊q⌋
    · rw [if_pos hgt]
      push_cast
      rw [abs_le]
      constructor <;> linarith
    · rw [if_neg hgt]
      by_cases he : Even ⌊q⌋
      · rw [if_pos he, abs_le]
        constructor <;> linarith
      · rw [if_neg he]
        push_cast
        rw [abs_le]
        constructor <;> linarith

lemma pyRound_half : pyRound (1/2) = 0 := by norm_num [pyRound]

lemma pyRound_neg_half : pyRound (-(1/2)) = 0 := by norm_num [pyRound]

lemma rthi_halfint (v : ℚ) :
    round_to_half_integer v =
      ((2 * pyRound v + pyRound ((v - pyRound v) * 2) : ℤ) : ℚ) / 2 := by
  unfold round_to_half_integer
  push_cast
  ring

lemma abs_sub_rthi (v : ℚ) : |v - round_to_half_integer v| ≤ 1/4 := by
  have h := abs_sub_pyRound ((v - pyRound v) * 2)
  have hrw : v - round_to_half_integer v =
      ((v - (pyRound v : ℚ)) * 2 - (pyRound ((v - pyRound v) * 2) : ℚ)) / 2 := by
    unfold round_to_half_integer
    ring
  rw [hrw, abs_div]
  rw [show |(2 : ℚ)| = 2 by norm_num]
  linarith

lemma rthi_nearest (v : ℚ) (j : ℤ) :
    |v - round_to_half_integer v| ≤ |v - (j : ℚ)/2| := by
  obtain ⟨k, hk⟩ : ∃ k : ℤ, round_to_half_integer v = (k : ℚ)/2 :=
    ⟨_, rthi_halfint v⟩
  by_cases hkj : k = j
  · rw [hk, hkj]
  · have hcast : (k : ℚ)/2 - (j : ℚ)/2 = ((k - j : ℤ) : ℚ)/2 := by
      push_cast
      ring
    have h1 : (1 : ℚ) ≤ |((k - j : ℤ) : ℚ)| := by
      rw [← Int.cast_abs]
      exact_mod_cast Int.one_le_abs (sub_ne_zero.2 hkj)
    have hdist : (1:ℚ)/2 ≤ |(k : ℚ)/2 - (j : ℚ)/2| := by
      rw [hcast, abs_div, show |(2 : ℚ)| = 2 by norm_num]
      linarith
    have hb := abs_sub_rthi v
    have htri : |(k:ℚ)/2 - (j:ℚ)/2| ≤ |v - (k:ℚ)/2| + |v - (j:ℚ)/2| := by
      have h := abs_add ((k:ℚ)/2 - v) (v - (j:ℚ)/2)
      rw [show (k:ℚ)/2 - v + (v - (j:ℚ)/2) = (k:ℚ)/2 - (j:ℚ)/2 by ring,
        abs_sub_comm ((k:ℚ)/2) v] at h
      exact h
    rw [hk] at hb ⊢
    linarith

lemma rthi_quarter (n : ℤ) : round_to_half_integer ((n : ℚ) + 1/4) = n := by
  have hf : ⌊(n : ℚ) + 1/4⌋ = n := by
    rw [Int.floor_int_add]
    norm_num
  have hr : pyRound ((n : ℚ) + 1/4) = n := by
    unfold pyRound
    rw [hf, if_pos (by norm_num)]
  unfold round_to_half_integer
  rw [hr, show ((n : ℚ) + 1/4 - (n : ℤ)) * 2 = 1/2 by norm_num, pyRound_half]
  norm_num

lemma rthi_three_quarter (n : ℤ) :
    round_to_half_integer ((n : ℚ) + 3/4) = (n : ℚ) + 1 := by
  have hf : ⌊(n : ℚ) + 3/4⌋ = n := by
    rw [Int.floor_int_add]
    norm_num
  have hr : pyRound ((n : ℚ) + 3/4) = n + 1 := by
    unfold pyRound
    rw [hf, if_neg (by norm_num), if_pos (by norm_num)]
  unfold round_to_half_integer
  rw [hr, show ((n : ℚ) + 3/4 - ((n + 1 : ℤ) : ℚ)) * 2 = -(1/2) by push_cast; ring,
    pyRound_neg_half]
  push_cast
  ring

/-- C2 (counterexample): at the exact quarter-point tie 532.25 the code
returns 532.0 — not 532.5 as the claim states — because Python's
`round` sends both inner ties `round(±0.5)` to the even integer 0. -/
theorem round_to_half_integer_tie_counterexample :
    round_to_half_integer (2129/4) = 532 ∧
    round_to_half_integer (2129/4) ≠ 1065/2 := by
  have h : round_to_half_integer (2129/4) = 532 := by
    norm_num [round_to_half_integer, pyRound]
  refine ⟨h, ?_⟩
  rw [h]
  norm_num

/-- C2 (amended): for every v, `round_to_half_integer v` is a multiple
of 0.5 at minimal distance from v, and at exact quarter-point ties it
rounds toward the integer: n + 0.25 returns n (so 532.25 returns 532.0,
not 532.5) and n + 0.75 returns n + 1 (so 532.75 returns 533.0). -/
theorem round_to_half_integer_nearest_spec :
    (∀ v : ℚ, (∃ k : ℤ, round_to_half_integer v = (k : ℚ)/2) ∧
      ∀ j : ℤ, |v - round_to_half_integer v| ≤ |v - (j : ℚ)/2|) ∧
    (∀ n : ℤ, round_to_half_integer ((n : ℚ) + 1/4) = (n : ℚ) ∧
      round_to_half_integer ((n : ℚ) + 3/4) = (n : ℚ) + 1) :=
  ⟨fun v => ⟨⟨_, rthi_halfint v⟩, rthi_nearest v⟩,
   fun n => ⟨rthi_quarter n, rthi_three_quarter n⟩⟩

/-- C1 (counterexample): with bounds [3, 15], identity scaling and the
in-range target 5.2 on the fwhm axis, the claimed pipeline (round only
the cw axis) would write fwhm 5.2, but `move_abs` rounds the fwhm
target too and writes 5.0. -/
theorem move_abs_pipeline_counterexample :
    move_abs true 3 15 id Axis.fwhm initState (26/5) = (532, 5) ∧
    move_abs_claimed true 3 15 id Axis.fwhm initState (26/5) = (532, 26/5) ∧
    move_abs true 3 15 id Axis.fwhm initState (26/5) ≠
      move_abs_claimed true 3 15 id Axis.fwhm initState (26/5) := by
  refine ⟨?_, ?_, ?_⟩ <;>
    norm_num [move_abs, move_abs_claimed, check_bound, round_to_half_integer,
      pyRound, initState]

/-- C1 (amended): for every target and both axes, `move_abs` applies
clamp to bounds → round to half integer (both axes) → scaling → round
to half integer once more when the axis is cw; and a relative move
applies exactly the same pipeline to the bounds-clamped sum of the
current position and the delta. -/
theorem move_abs_pipeline_spec (isB : Bool) (bmin bmax : ℚ) (scale : ℚ → ℚ)
    (axis : Axis) (st : FWSState) :
    (∀ target, move_abs isB bmin bmax scale axis st target =
      move_abs_amended isB bmin bmax scale axis st target) ∧
    (∀ scaleRel current delta,
      move_rel isB bmin bmax scale scaleRel axis st current delta =
        move_abs_amended isB bmin bmax scale axis st
          (check_bound isB bmin bmax (current + delta))) := by
  have habs : ∀ target, move_abs isB bmin bmax scale axis st target =
      move_abs_amended isB bmin bmax scale axis st target := by
    intro target
    cases axis <;> rfl
  refine ⟨habs, fun scaleRel current delta => ?_⟩
  show move_abs isB bmin bmax scale axis st
      (check_bound isB bmin bmax (current + delta) - current + current) =
    move_abs_amended isB bmin bmax scale axis st
      (check_bound isB bmin bmax (current + delta))
  rw [sub_add_cancel]
  exact habs _

/-- C9: a relative move by delta from the current position issues
exactly the command of an absolute move to the bounds-clamped sum
current + delta. -/
theorem move_rel_delegates_spec (isB : Bool) (bmin bmax : ℚ)
    (scale scaleRel : ℚ → ℚ) (axis : Axis) (st : FWSState)
    (current delta : ℚ) :
    move_rel isB bmin bmax scale scaleRel axis st current delta =
      move_abs isB bmin bmax scale axis st
        (check_bound isB bmin bmax (current + delta)) := by
  show move_abs isB bmin bmax scale axis st
      (check_bound isB bmin bmax (current + delta) - current + current) =
    move_abs isB bmin bmax scale axis st
      (check_bound isB bmin bmax (current + delta))
  rw [sub_add_cancel]

/-- C3: the `cw_fwhm` setter raises an I/O error exactly when the
vendor `SetWavelength` code is non-zero; the cache is set to the
written pair exactly on code zero, and is left unchanged on a non-zero
code. -/
theorem setCwFwhm_spec (ret : ℤ) (msg : String) (pair : ℚ × ℚ)
    (st : FWSState) :
    ((setCwFwhm ret msg pair st).1 ≠ none ↔ ret ≠ 0) ∧
    (ret = 0 → setCwFwhm ret msg pair st = (none, ⟨pair.1, pair.2⟩)) ∧
    (ret ≠ 0 → (setCwFwhm ret msg pair st).2 = st) := by
  unfold setCwFwhm
  by_cases h : ret = 0 <;> simp [h]

/-- C3 (witness): a successful write at code 0 updates the cache to
(600, 7); a failed write at code −11 leaves the cache at its initial
value. -/
theorem setCwFwhm_spec_witness :
    setCwFwhm 0 "The command has been executed properly." (600, 7)
        initState = (none, ⟨600, 7⟩) ∧
    (setCwFwhm (-11) "Communication error." (600, 7) initState).2 =
      initState :=
  ⟨(setCwFwhm_spec 0 _ (600, 7) initState).2.1 rfl,
   (setCwFwhm_spec (-11) _ (600, 7) initState).2.2 (by decide)⟩

/-- C8: `get_device_info` raises the translated message exactly when
the `GetInforData` code is non-zero, and returns the
(model, serial, range) identity exactly when the code is zero. -/
theorem get_device_info_spec (ret : ℤ) (msg model serial rng : String) :
    (get_device_info ret msg model serial rng = .error msg ↔ ret ≠ 0) ∧
    (get_device_info ret msg model serial rng = .ok (model, serial, rng) ↔
      ret = 0) := by
  unfold get_device_info
  by_cases h : ret = 0 <;> simp [h]

/-- C8 (witness): code −1 raises the translated message, code 0 returns
the identity triple. -/
theorem get_device_info_spec_witness :
    get_device_info (-1) "Device not found." "FWS" "001" "500-600" =
      .error "Device not found." ∧
    get_device_info 0 "The command has been executed properly." "FWS"
        "001" "500-600" = .ok ("FWS", "001", "500-600") :=
  ⟨(get_device_info_spec (-1) _ _ _ _).1.mpr (by decide),
   (get_device_info_spec 0 _ _ _ _).2.mpr rfl⟩

/-- C6: blank mode on issues only `GoBlankPosition` and leaves the
cache untouched; blank mode off then writes back exactly the cached
(cw, fwhm) pair with a single `SetWavelength`, and the round trip
never issues `GetCurrentWavelength`; on a zero write code the cache is
restored to the original state. -/
theorem commit_blank_roundtrip_spec (st : FWSState) (r1 : ℤ) (m1 : String)
    (ret : ℤ) (msg : String) :
    (commit_blank r1 m1 true st).1 = [Cmd.goBlank] ∧
    (commit_blank r1 m1 true st).2.2 = st ∧
    (ret = 0 →
      commit_blank ret msg false ((commit_blank r1 m1 true st).2.2) =
        ([Cmd.setWavelength st.cw st.fwhm], none, st)) ∧
    Cmd.getCurrentWavelength ∉
      (commit_blank r1 m1 true st).1 ++
        (commit_blank ret msg false ((commit_blank r1 m1 true st).2.2)).1 := by
  refine ⟨rfl, rfl, fun h => ?_, ?_⟩
  · subst h
    rfl
  · unfold commit_blank
    simp

/-- C6 (witness): from the initial cache (532, 5), enabling then
disabling blank mode with a successful write restores exactly the
initial cache, issuing the single command `SetWavelength 532 5`. -/
theorem commit_blank_roundtrip_witness :
    commit_blank 0 "x" false ((commit_blank 0 "x" true initState).2.2) =
      ([Cmd.setWavelength 532 5], none, initState) := by
  have h := (commit_blank_roundtrip_spec initState 0 "x" 0 "x").2.2.1 rfl
  simpa [initState] using h

lemma containsComma_replaceCommaDot (s : String) :
    containsComma (replaceCommaDot s) = false := by
  show ((s.toList.map fun c => if c = ',' then '.' else c).contains ',') = false
  generalize s.toList = l
  induction l with
  | nil => rfl
  | cons c rest ih =>
      simp only [List.map_cons, List.contains_cons, Bool.or_eq_false_iff]
      refine ⟨?_, ih⟩
      by_cases hc : c = ',' <;> simp [hc]
      exact fun h => hc h.symm

/-- C4 (counterexample): when only the fwhm string carries a decimal
comma (cw "532", fwhm "7,5"), the getter does not normalize it — the
normalization of both strings is gated on the cw string containing a
comma — so the parse fails (a `ValueError` from `float("7,5")`)
although the normalized string would have parsed to the intended 7.5. -/
theorem getCwFwhm_comma_counterexample :
    getCwFwhm 0 "The command has been executed properly." "532" "7,5"
        initState = (ReadResult.parseError, initState) ∧
    parseFloat (replaceCommaDot "7,5") = some (15/2) ∧
    containsComma "7,5" = true := by
  refine ⟨?_, ?_, by decide⟩
  · simp +decide [getCwFwhm, containsComma, parseFloat, splitOnDot, digitsToNat]
  · simp +decide [parseFloat, replaceCommaDot, splitOnDot, digitsToNat]
    norm_num

/-- C4 (amended): the getter raises the device error with the
translated message exactly on a non-zero code; when the cw string
contains a comma, both the cw and the fwhm strings are normalized
(comma to period) before parsing — when the cw string does not, the
fwhm string is not normalized even if it contains a comma; and whenever
the read succeeds the cache is updated to the parsed pair. -/
theorem getCwFwhm_spec (ret : ℤ) (msg cs fs : String) (st : FWSState) :
    ((∃ m, (getCwFwhm ret msg cs fs st).1 = ReadResult.deviceError m) ↔
      ret ≠ 0) ∧
    (ret ≠ 0 → getCwFwhm ret msg cs fs st = (ReadResult.deviceError msg, st)) ∧
    (ret = 0 → containsComma cs = true →
      getCwFwhm ret msg cs fs st =
        getCwFwhm ret msg (replaceCommaDot cs) (replaceCommaDot fs) st) ∧
    (∀ c f, (getCwFwhm ret msg cs fs st).1 = ReadResult.ok c f →
      (getCwFwhm ret msg cs fs st).2 = FWSState.mk c f) := by
  by_cases h : ret = 0
  · subst h
    refine ⟨?_, ?_, ?_, ?_⟩
    · simp only [ne_eq, not_true_eq_false, iff_false, not_exists]
      intro m
      unfold getCwFwhm
      simp only [if_neg (by norm_num : ¬ (0 : ℤ) ≠ 0)]
      cases hp : parseFloat (if containsComma cs then replaceCommaDot cs else cs) <;>
        cases hq : parseFloat (if containsComma cs then replaceCommaDot fs else fs) <;>
          simp [hp, hq]
    · intro hne
      exact absurd rfl hne
    · intro _ hc
      unfold getCwFwhm
      simp [hc, containsComma_replaceCommaDot]
    · intro c f
      unfold getCwFwhm
      simp only [if_neg (by norm_num : ¬ (0 : ℤ) ≠ 0)]
      cases hp : parseFloat (if containsComma cs then replaceCommaDot cs else cs) <;>
        cases hq : parseFloat (if containsComma cs then replaceCommaDot fs else fs) <;>
          simp [hp, hq]
  · refine ⟨?_, fun _ => ?_, fun h0 => absurd h0 h, ?_⟩
    · simp only [ne_eq, h, not_false_eq_true, iff_true]
      exact ⟨msg, by unfold getCwFwhm; simp [h]⟩
    · unfold getCwFwhm
      simp [h]
    · intro c f
      unfold getCwFwhm
      simp [h]

/-- C4 (witness): on the comma-decimal pair ("532,5", "7,5") with code
0, the getter behaves as on the normalized pair and parses (532.5, 7.5),
updating the cache. -/
theorem getCwFwhm_spec_witness :
    getCwFwhm 0 "y" "532,5" "7,5" initState =
      getCwFwhm 0 "y" (replaceCommaDot "532,5") (replaceCommaDot "7,5")
        initState ∧
    getCwFwhm 0 "y" "532,5" "7,5" initState =
      (ReadResult.ok (1065/2) (15/2), ⟨1065/2, 15/2⟩) := by
  refine ⟨(getCwFwhm_spec 0 "y" "532,5" "7,5" initState).2.2.1 rfl (by decide), ?_⟩
  simp +decide [getCwFwhm, containsComma, replaceCommaDot, parseFloat,
    splitOnDot, digitsToNat]
  norm_num

/-- C7 (counterexample): a message table missing the message of
enumeration code −22 still passes the startup check — the check only
verifies the message → enumeration direction — and the missing mapping
then surfaces at runtime message lookup, which fails; so a missing
enumeration → message mapping is NOT a failure at initialization time. -/
theorem check_error_messages_counterexample :
    checkErrorMessagesWith MSG_CLEAR_dropped = true ∧
    (-22 : ℤ) ∈ polyMsgEnum.map Prod.snd ∧
    getMessageFromCodeWith MSG_CLEAR_dropped (-22) = none := by
  exact ⟨by decide, by decide, by decide⟩

/-- C7 (amended): the startup check validates only that every defined
message key names an enumeration entry, and it passes on the shipped
table; as a fact of the shipped data — not enforced by the startup
check — every enumeration code also resolves to a non-empty message at
runtime. -/
theorem check_error_messages_spec :
    check_error_messages = true ∧
    (MSG_CLEAR.all fun kv => enumNames.contains kv.1) = true ∧
    (polyMsgEnum.all fun nc =>
      (get_message_from_code nc.2).isSome &&
        ((get_message_from_code nc.2).getD "" != "")) = true := by
  exact ⟨by decide, by decide, by decide⟩

lemma waitFrom_never_ready (status : ℕ → ℤ) (timeout : ℚ)
    (hnever : ∀ n, is_device_ready (status n) = false) :
    ∀ (fuel : ℕ) (n : ℕ), timeout < ((n : ℚ) + (fuel : ℚ)) * (1/2) →
      ((n : ℚ) * (1/2) ≤ timeout ∨ (n = 0 ∧ 0 < fuel)) →
      ∃ k, waitFrom status timeout fuel n = WaitOutcome.timedOut k ∧
        timeout < (k : ℚ) * (1/2) := by
  intro fuel
  induction fuel with
  | zero =>
      intro n h1 h2
      rcases h2 with h2 | ⟨_, h⟩
      · exfalso
        push_cast at h1
        linarith
      · exact absurd h (lt_irrefl 0)
  | succ f ih =>
      intro n h1 h2
      by_cases hbreak : timeout < ((n : ℚ) + 1) * (1/2)
      · refine ⟨n + 1, ?_, by push_cast; linarith⟩
        rw [waitFrom, if_neg (by simp [hnever n]), if_pos hbreak]
      · obtain ⟨k, hk, hk2⟩ :=
          ih (n + 1) (by push_cast at h1 ⊢; linarith)
            (Or.inl (by push_cast; linarith [not_lt.1 hbreak]))
        refine ⟨k, ?_, hk2⟩
        rw [waitFrom, if_neg (by simp [hnever n]), if_neg hbreak]
        exact hk

lemma waitFrom_first_ready (status : ℕ → ℤ) (timeout : ℚ) :
    ∀ p fuel n, is_device_ready (status (n + p)) = true →
      (∀ m, m < p → is_device_ready (status (n + m)) = false) →
      (∀ m, m < p → (((n + m : ℕ) : ℚ) + 1) * (1/2) ≤ timeout) →
      p < fuel →
      waitFrom status timeout fuel n = WaitOutcome.ready (n + p) := by
  intro p
  induction p with
  | zero =>
      intro fuel n hready _ _ hfuel
      obtain ⟨f, rfl⟩ : ∃ f, fuel = f + 1 := ⟨fuel - 1, by omega⟩
      rw [Nat.add_zero] at hready ⊢
      simp [waitFrom, hready]
  | succ q ih =>
      intro fuel n hready hnot hnb hfuel
      obtain ⟨f, rfl⟩ : ∃ f, fuel = f + 1 := ⟨fuel - 1, by omega⟩
      have h0 : is_device_ready (status n) = false := by
        simpa using hnot 0 (Nat.succ_pos q)
      have hb : ¬ timeout < ((n : ℚ) + 1) * (1/2) := by
        have := hnb 0 (Nat.succ_pos q)
        push_cast at this
        linarith
      have hstep := ih f (n + 1)
        (by rw [show n + 1 + q = n + (q + 1) from by omega]; exact hready)
        (fun m hm => by
          rw [show n + 1 + m = n + (m + 1) from by omega]
          exact hnot (m + 1) (by omega))
        (fun m hm => by
          have := hnb (m + 1) (by omega)
          push_cast at this ⊢
          linarith)
        (by omega)
      rw [show n + (q + 1) = n + 1 + q from by omega, waitFrom,
        if_neg (by simp [h0]), if_neg hb]
      exact hstep

lemma fuel_gt_twice_timeout (timeout : ℚ) :
    2 * timeout < (⌈2 * timeout⌉.toNat : ℚ) + 1 := by
  have h1 : 2 * timeout ≤ (⌈2 * timeout⌉ : ℚ) := Int.le_ceil _
  have h2 : (⌈2 * timeout⌉ : ℚ) ≤ (⌈2 * timeout⌉.toNat : ℚ) := by
    exact_mod_cast Int.self_le_toNat _
  linarith

/-- C5: against any idealised device-status trace, the readiness wait
terminates.  When the device never reports ready, the loop returns
normally with a timeout outcome (no error raised) after `k` half-second
sleeps whose total just exceeds the timeout; when the device first
reports ready at a poll the loop reaches, it returns the ready outcome
at exactly that poll. -/
theorem wait_device_ready_spec (status : ℕ → ℤ) (timeout : ℚ) :
    ((∀ n, is_device_ready (status n) = false) →
      ∃ k, wait_device_ready status timeout = WaitOutcome.timedOut k ∧
        timeout < (k : ℚ) * (1/2)) ∧
    (∀ p, is_device_ready (status p) = true →
      (∀ m, m < p → is_device_ready (status m) = false) →
      (p : ℚ) * (1/2) ≤ timeout →
      wait_device_ready status timeout = WaitOutcome.ready p) := by
  constructor
  · intro hnever
    refine waitFrom_never_ready status timeout hnever _ 0 ?_ (Or.inr ⟨rfl, Nat.succ_pos _⟩)
    have := fuel_gt_twice_timeout timeout
    push_cast
    linarith
  · intro p hready hnot hple
    have hfuel : p < ⌈2 * timeout⌉.toNat + 1 := by
      have h2 : (p : ℚ) ≤ 2 * timeout := by linarith
      have h3 : (p : ℚ) < (⌈2 * timeout⌉.toNat : ℚ) + 1 := by
        have := fuel_gt_twice_timeout timeout
        linarith
      exact_mod_cast h3
    have := waitFrom_first_ready status timeout p _ 0
      (by simpa using hready)
      (fun m hm => by simpa using hnot m hm)
      (fun m hm => by
        have hmp : ((m : ℚ) + 1) ≤ (p : ℚ) := by exact_mod_cast hm
        push_cast
        nlinarith)
      hfuel
    simpa using this

/-- C5 (witness): a trace stuck at the busy code 5 with the default
10-second timeout returns a timeout outcome after more than 10 seconds
of sleeping; a trace that becomes ready at poll 2 returns ready at
poll 2. -/
theorem wait_device_ready_spec_witness :
    (∃ k, wait_device_ready (fun _ => 5) 10 = WaitOutcome.timedOut k ∧
      (10 : ℚ) < (k : ℚ) * (1/2)) ∧
    wait_device_ready (fun n => if n = 2 then 6 else 5) 10 =
      WaitOutcome.ready 2 := by
  constructor
  · exact (wait_device_ready_spec (fun _ => 5) 10).1 (fun n => by decide)
  · refine (wait_device_ready_spec _ 10).2 2 (by decide) ?_ (by norm_num)
    intro m hm
    interval_cases m <;> decide

/-- C10: a poll counts as ready exactly when the vendor status code is
6; every other code — the error codes included — counts as not ready,
so a device that keeps returning an error code keeps the wait polling
until its timeout instead of returning early. -/
theorem is_device_ready_spec :
    (∀ code : ℤ, (is_device_ready code = true ↔ code = 6)) ∧
    (∀ status : ℕ → ℤ, (∀ n, status n ≠ 6) →
      ∃ k, wait_device_ready status default_timeout = WaitOutcome.timedOut k ∧
        default_timeout < (k : ℚ) * (1/2)) := by
  constructor
  · intro code
    simp [is_device_ready]
  · intro status h
    refine waitFrom_never_ready status default_timeout
      (fun n => by simp [is_device_ready, h n]) _ 0 ?_
      (Or.inr ⟨rfl, Nat.succ_pos _⟩)
    have := fuel_gt_twice_timeout default_timeout
    push_cast
    linarith

/-- C10 (witness): code 6 is ready; a trace stuck at the error code −11
(communication error) reaches the timeout outcome under the default
10-second timeout. -/
theorem is_device_ready_spec_witness :
    (is_device_ready 6 = true ↔ (6 : ℤ) = 6) ∧
    ∃ k, wait_device_ready (fun _ => -11) default_timeout =
        WaitOutcome.timedOut k ∧
      default_timeout < (k : ℚ) * (1/2) :=
  ⟨is_device_ready_spec.1 6,
   is_device_ready_spec.2 (fun _ => -11) (fun n => by norm_num)⟩

end Spectrolight
